import Mathlib

/-!
Verification of the Procura orchestration engine against its specification.

The definitions below are a shallow embedding of the Python sources:
  backend/ai/qualification.py      (pre-filter, scoring, cache, fallback)
  backend/workflows/pipeline.py    (auto-create submission)
  backend/routers/submissions.py   (task unlocking, sequential approval, seeding)
  backend/tasks/follow_ups.py      (batch follow-up reconciliation)
  backend/routers/follow_ups.py    (manual check-now trigger)

External collaborators (the LLM scorer, the source-status provider, the
repository rows) are passed in explicitly; database tables are lists of rows,
with query order equal to insertion order.
-/

namespace Procura

/-- Python truthiness of an optional string: `None` and the empty string are falsy. -/
def strTruthy : Option String → Bool
  | none => false
  | some s => s ≠ ""

/-- Whitespace characters stripped by Python `str.strip()`. -/
def isPySpace (c : Char) : Bool :=
  c = ' ' || c = '\t' || c = '\n' || c = '\r' || c = '\x0b' || c = '\x0c'

/-- Python `str.strip()`. -/
def pyStrip (s : String) : String :=
  ⟨((s.data.dropWhile isPySpace).reverse.dropWhile isPySpace).reverse⟩

/-- Python `s.startswith(pre)`. -/
def pyStartsWith (s pre : String) : Bool := pre.data.isPrefixOf s.data

/-- Python slice `s[:n]` (by code point, as in Python). -/
def pyTake (s : String) (n : Nat) : String := ⟨s.data.take n⟩

/-- Python `str.lower()` (ASCII case folding suffices for the data involved). -/
def pyLower (s : String) : String := ⟨s.data.map Char.toLower⟩

/-- Boolean infix test on character lists. -/
def isInfixChars : List Char → List Char → Bool
  | sub, [] => sub.isEmpty
  | sub, c :: rest => sub.isPrefixOf (c :: rest) || isInfixChars sub rest

/-- Python substring test `sub in s`. -/
def strIn (sub s : String) : Bool := isInfixChars sub.data s.data

/-! ## Data model for qualification (backend/ai/qualification.py) -/

/-- The fields of an opportunity row read by the qualification engine.
`dueDays` is `(due_date - date.today()).days` when a due date is present and
parses, `none` otherwise (the code folds a parse failure into `None`). -/
structure Opportunity where
  id : Option String
  naics_code : Option String
  estimated_value : Option ℚ
  set_aside : Option String
  dueDays : Option Int
deriving Repr, DecidableEq

/-- The company-profile fields read by the pre-filter and the prompt builder.
An absent or empty profile dict is modelled as `none` at use sites. -/
structure CompanyProfile where
  company_name : Option String
  naics_codes : List String
  min_contract_value : Option ℚ
  max_contract_value : Option ℚ
  set_aside_types : List String
  certifications : List String
deriving Repr, DecidableEq

/-! ## Pre-filter helpers -/

/-- `_naics_matches`: true if the opportunity NAICS starts with any registered
company NAICS prefix (or either side is missing/empty). -/
def naics_matches (opp_naics : Option String) (company_naics : List String) : Bool :=
  if !strTruthy opp_naics || company_naics.isEmpty then true
  else
    let opp := pyStrip (opp_naics.getD "")
    company_naics.any fun cn =>
      let pre := pyStrip cn
      pyStartsWith opp pre || pyStartsWith pre (pyTake opp 4)

/-- `_value_in_range`: true if the estimated value is within the bounds; a
missing value or a missing bound never rejects. -/
def value_in_range (estimated_value min_val max_val : Option ℚ) : Bool :=
  match estimated_value with
  | none => true
  | some v =>
    if (match min_val with | some m => decide (v < m) | none => false) then false
    else if (match max_val with | some m => decide (m < v) | none => false) then false
    else true

/-- `_set_aside_eligible`: true if the set-aside is unrestricted, the company
lists no eligibility, or some eligibility string matches by substring. -/
def set_aside_eligible (opp_set_aside : Option String) (eligible_types : List String) : Bool :=
  if !strTruthy opp_set_aside
      || ["none", "total small business", ""].contains (pyLower (opp_set_aside.getD "")) then
    true
  else if eligible_types.isEmpty then true
  else
    let opp_lower := pyLower (opp_set_aside.getD "")
    eligible_types.any fun cert =>
      strIn (pyLower cert) opp_lower || strIn opp_lower (pyLower cert)

/-- `is_prefilter_pass`: the cheap gate run before any LLM call. -/
def is_prefilter_pass (opportunity : Opportunity) (profile : Option CompanyProfile) : Bool :=
  match profile with
  | none => true
  | some p =>
    naics_matches opportunity.naics_code p.naics_codes &&
    value_in_range opportunity.estimated_value p.min_contract_value p.max_contract_value &&
    set_aside_eligible opportunity.set_aside (p.set_aside_types ++ p.certifications)

/-! ## Scoring, clamping, cache and fallback (qualify_opportunity) -/

/-- Python `int()` applied to a rational: truncation toward zero. -/
def pyInt (q : ℚ) : Int := Int.tdiv q.num (q.den : Int)

/-- Rounding to the nearest integer (ties upward), computed on the reduced
numerator and denominator: `floor(q + 1/2) = fdiv(2*num + den, 2*den)`. -/
def ratRound (q : ℚ) : Int := Int.fdiv (2 * q.num + (q.den : Int)) (2 * (q.den : Int))

/-- The clamp the code applies to each score: `max(0, min(100, int(score)))`. -/
def clampScore (q : ℚ) : Int := max 0 (min 100 (pyInt q))

/-- The clamp as the spec words it: round the score to the nearest integer,
then clamp into [0,100]. Used only to compare the spec against the code. -/
def spec_round_clamp (q : ℚ) : Int := max 0 (min 100 (ratRound q))

/-- A successful JSON response from the LLM scorer: the three raw numeric
scores plus the textual summary and per-score reasoning. -/
structure ScorerOutput where
  fit_score : ℚ
  effort_score : ℚ
  urgency_score : ℚ
  summary : String
  fit_reason : String
  effort_reason : String
  urgency_reason : String
deriving Repr, DecidableEq

/-- The reasoning part of a qualification result: a per-score breakdown on
success, or an error dict on fallback. -/
inductive Reasoning where
  | breakdown (fit effort urgency : String)
  | failure (error : String)
deriving Repr, DecidableEq

/-- The dict returned by `qualify_opportunity`. `personalized` is the
`_personalized` key, absent (`none`) in the fallback dict. -/
structure QualificationResult where
  fit_score : Int
  effort_score : Int
  urgency_score : Int
  summary : String
  reasoning : Reasoning
  personalized : Option Bool
deriving Repr, DecidableEq

/-- The `llm_cache` table: rows of (opportunity_id, response), in insertion
order; a lookup returns the first row for the id. -/
abbrev LlmCache := List (String × QualificationResult)

/-- Select `response` from `llm_cache` where `opportunity_id` matches; the
code takes `data[0]`. -/
def cacheLookup (cache : LlmCache) (oppId : String) : Option QualificationResult :=
  (List.find? (fun e => e.1 == oppId) cache).map (·.2)

/-- `bool(profile and profile.get("company_name"))`. -/
def profileTruthy : Option CompanyProfile → Bool
  | none => false
  | some p => strTruthy p.company_name

/-- The non-cached path of `qualify_opportunity`: compute days-until-due,
invoke the scorer, clamp on success (writing the cache), or build the
deterministic fallback dict on failure (not cached). -/
def scoreWithFallback (cache : LlmCache) (opportunity : Opportunity)
    (profile : Option CompanyProfile) (scorer : Except String ScorerOutput) :
    QualificationResult × LlmCache :=
  let days_until_due : Int := opportunity.dueDays.getD 30
  match scorer with
  | .ok out =>
    let res : QualificationResult :=
      { fit_score := clampScore out.fit_score
        effort_score := clampScore out.effort_score
        urgency_score := clampScore out.urgency_score
        summary := out.summary
        reasoning := .breakdown out.fit_reason out.effort_reason out.urgency_reason
        personalized := some (profileTruthy profile) }
    let cache' : LlmCache :=
      if strTruthy opportunity.id then cache ++ [(opportunity.id.getD "", res)] else cache
    (res, cache')
  | .error e =>
    ({ fit_score := 50
       effort_score := 50
       urgency_score := max 0 (min 100 (100 - days_until_due * 3))
       summary := "AI qualification unavailable — scores are estimates."
       reasoning := .failure e
       personalized := none }, cache)

/-- `qualify_opportunity`: unless force-refreshed, a cache hit for a truthy
opportunity id short-circuits scoring and returns the cached response. -/
def qualify_opportunity (cache : LlmCache) (opportunity : Opportunity)
    (profile : Option CompanyProfile) (force_refresh : Bool)
    (scorer : Except String ScorerOutput) : QualificationResult × LlmCache :=
  if !force_refresh && strTruthy opportunity.id then
    match cacheLookup cache (opportunity.id.getD "") with
    | some cached => (cached, cache)
    | none => scoreWithFallback cache opportunity profile scorer
  else scoreWithFallback cache opportunity profile scorer

/-! ## Pipeline auto-create (backend/workflows/pipeline.py) and manual
seeding (backend/routers/submissions.py create_submission) -/

/-- A row of the `submissions` table (the fields the pipeline writes). -/
structure SubmissionRow where
  id : String
  opportunity_id : String
  owner_id : String
  title : String
  portal : String
  status : String
  notes : String
deriving Repr, DecidableEq

/-- A row of the `submission_tasks` table, in `created_at` order within its
submission. `locked` and `completed` default to false on insert. -/
structure TaskRow where
  submission_id : String
  title : String
  subtitle : String
  locked : Bool
  completed : Bool
deriving Repr, DecidableEq

/-- A row of the `approval_workflows` table; `status` defaults to pending. -/
structure WorkflowRow where
  submission_id : String
  step_name : String
  step_order : Nat
  approver_role : String
  status : String
deriving Repr, DecidableEq

/-- The database state touched by submission creation. `profiles` is the
admin/contract-officer user ids in query order; `next_id` feeds the id
generator for inserted submissions. -/
structure PipelineDB where
  submissions : List SubmissionRow
  submission_tasks : List TaskRow
  approval_workflows : List WorkflowRow
  profiles : List String
  next_id : Nat
deriving Repr, DecidableEq

/-- The opportunity fields read by the pipeline controller. -/
structure OppRecord where
  id : String
  title : String
  source : Option String
  fit_score : Option Int
deriving Repr, DecidableEq

/-- Id assigned to the `next_id`-th inserted submission. -/
def freshId (n : Nat) : String := "sub-" ++ toString n

/-- The five default task rows inserted by `_auto_create_submission`
(backend/workflows/pipeline.py, lines 186-193). -/
def pipeline_default_tasks (sid : String) : List TaskRow :=
  [ { submission_id := sid, title := "Complete Checklist",
      subtitle := "Review and complete all required fields", locked := false, completed := false },
    { submission_id := sid, title := "Upload Documents",
      subtitle := "Attach all required documents", locked := false, completed := false },
    { submission_id := sid, title := "Legal Review",
      subtitle := "Obtain legal department approval", locked := true, completed := false },
    { submission_id := sid, title := "Finance Review",
      subtitle := "Obtain finance department approval", locked := true, completed := false },
    { submission_id := sid, title := "Final Review",
      subtitle := "Complete final review before submission", locked := true, completed := false } ]

/-- The five default task rows inserted by the manual `create_submission`
endpoint (backend/routers/submissions.py, lines 362-368). -/
def manual_default_tasks (sid : String) : List TaskRow :=
  [ { submission_id := sid, title := "Complete Checklist",
      subtitle := "Review and complete all required fields", locked := false, completed := false },
    { submission_id := sid, title := "Upload Documents",
      subtitle := "Attach all required documents", locked := false, completed := false },
    { submission_id := sid, title := "Legal Review",
      subtitle := "Obtain legal department approval", locked := true, completed := false },
    { submission_id := sid, title := "Finance Review",
      subtitle := "Obtain finance department approval", locked := true, completed := false },
    { submission_id := sid, title := "Final Review",
      subtitle := "Complete final review before submission", locked := true, completed := false } ]

/-- The two sequential approval rows inserted by the manual `create_submission`
endpoint (backend/routers/submissions.py, lines 372-376). `_auto_create_submission`
inserts no counterpart. -/
def manual_approval_steps (sid : String) : List WorkflowRow :=
  [ { submission_id := sid, step_name := "legal", step_order := 1,
      approver_role := "contract_officer", status := "pending" },
    { submission_id := sid, step_name := "finance", step_order := 2,
      approver_role := "contract_officer", status := "pending" } ]

/-- Render the fit score the way the f-string in the notes does. -/
def showFit : Option Int → String
  | some n => toString n
  | none => "None"

/-- `_auto_create_submission`: return the id of an existing submission for the
opportunity if any row exists; otherwise resolve an owner (the triggering
user, else the first admin/officer), insert a draft submission plus its five
default tasks, and return the new id. Returns none when no owner resolves. -/
def auto_create_submission (db : PipelineDB) (opportunity : OppRecord)
    (user_id : Option String) : Option String × PipelineDB :=
  let existing := db.submissions.filter (fun s => s.opportunity_id == opportunity.id)
  match existing with
  | e :: _ => (some e.id, db)
  | [] =>
    let owner_id : Option String :=
      if strTruthy user_id then user_id else db.profiles.head?
    if !strTruthy owner_id then (none, db)
    else
      let owner := owner_id.getD ""
      let portal :=
        if pyLower (opportunity.source.getD "") == "sam" then "SAM.gov"
        else if strTruthy opportunity.source then opportunity.source.getD ""
        else "unknown"
      let sid := freshId db.next_id
      let sub : SubmissionRow :=
        { id := sid, opportunity_id := opportunity.id, owner_id := owner,
          title := opportunity.title, portal := portal, status := "draft",
          notes := "Auto-created by pipeline orchestrator (fit=" ++ showFit opportunity.fit_score ++ ")" }
      let db' : PipelineDB :=
        { db with
          submissions := db.submissions ++ [sub]
          submission_tasks := db.submission_tasks ++ pipeline_default_tasks sid
          next_id := db.next_id + 1 }
      (some sid, db')

/-- Number of `submissions` rows for an opportunity. -/
def countSubs (db : PipelineDB) (oppId : String) : Nat :=
  (db.submissions.filter (fun s => s.opportunity_id == oppId)).length

/-- `approval_workflows` rows of one submission. -/
def stepsFor (db : PipelineDB) (sid : String) : List WorkflowRow :=
  db.approval_workflows.filter (fun w => w.submission_id == sid)

/-- `submission_tasks` rows of one submission, in insertion order. -/
def tasksFor (db : PipelineDB) (sid : String) : List TaskRow :=
  db.submission_tasks.filter (fun t => t.submission_id == sid)

/-! ## Sequential approval (backend/routers/submissions.py approve_submission) -/

/-- A row of the `approval_workflows` table as read by the approve endpoint. -/
structure ApprovalStep where
  step_name : String
  step_order : Nat
  status : String
  approver_id : Option String
  approved_at : Option Nat
  step_notes : Option String
deriving Repr, DecidableEq

/-- The per-submission state the approve endpoint touches: the workflow rows
(in table order) and the derived `approval_status` column. -/
structure SubmissionApproval where
  steps : List ApprovalStep
  approval_status : String
deriving Repr, DecidableEq

/-- The distinct responses of the approve endpoint, one constructor per
distinct HTTP outcome in the code. -/
inductive ApproveOutcome where
  | approvedStep (step : String)
  | alreadyApproved (step : String)
  | unknownStep (step : String)
  | sequentialOrderViolation (step prior : String)
  | noWorkflow
deriving Repr, DecidableEq

/-- The workflow rows as the endpoint queries them: ordered by `step_order`. -/
def sortedSteps (l : List ApprovalStep) : List ApprovalStep :=
  List.insertionSort (fun a b => a.step_order ≤ b.step_order) l

/-- `approve_submission`: find the step by name; succeed idempotently if it is
already approved; reject if any step with smaller order is not approved;
otherwise mark it approved and recompute `approval_status`. -/
def approve_submission (sub : SubmissionApproval) (step : String) (user_id : String)
    (note : Option String) (now : Nat) : ApproveOutcome × SubmissionApproval :=
  let ws := sortedSteps sub.steps
  if ws.isEmpty then (.noWorkflow, sub)
  else
    match ws.find? (fun w => w.step_name == step) with
    | none => (.unknownStep step, sub)
    | some target =>
      if target.status == "approved" then (.alreadyApproved step, sub)
      else
        match ws.find? (fun w => decide (w.step_order < target.step_order) && w.status != "approved") with
        | some prior => (.sequentialOrderViolation step prior.step_name, sub)
        | none =>
          let mark : ApprovalStep → ApprovalStep := fun w =>
            { w with
              status := "approved"
              approver_id := some user_id
              approved_at := some now
              step_notes := note }
          let steps' := sub.steps.map fun w => if w.step_name == step then mark w else w
          let all_approved := ws.all fun w => w.status == "approved" || w.step_name == step
          let approval_status := if all_approved then "complete" else step ++ "_approved"
          (.approvedStep step, { steps := steps', approval_status := approval_status })

/-! ## Task unlocking (backend/routers/submissions.py) -/

/-- `_unlock_dependent_tasks`: with the tasks of one submission in
`created_at` order, unlock task 2 when 0 and 1 are completed, task 3 when 2
is completed, task 4 when 2 and 3 are completed; fewer than five tasks is a
no-op. All three conditions read the state fetched before any write. -/
def unlock_dependent_tasks : List TaskRow → List TaskRow
  | t0 :: t1 :: t2 :: t3 :: t4 :: rest =>
    let t2' := if t0.completed && t1.completed && t2.locked then { t2 with locked := false } else t2
    let t3' := if t2.completed && t3.locked then { t3 with locked := false } else t3
    let t4' := if t2.completed && t3.completed && t4.locked then { t4 with locked := false } else t4
    t0 :: t1 :: t2' :: t3' :: t4' :: rest
  | ts => ts

/-- The distinct responses of the task-update endpoint. -/
inductive TaskUpdateOutcome where
  | updated
  | taskLocked
  | taskNotFound
deriving Repr, DecidableEq

/-- `update_task` on the task list of one submission (the task is addressed
by position): completing a locked task is rejected with no write; otherwise
the completed flag is written and dependent tasks are recomputed. -/
def update_task (ts : List TaskRow) (idx : Nat) (completed : Bool) :
    TaskUpdateOutcome × List TaskRow :=
  match ts[idx]? with
  | none => (.taskNotFound, ts)
  | some t =>
    if t.locked then (.taskLocked, ts)
    else (.updated, unlock_dependent_tasks (ts.set idx { t with completed := completed }))

/-- The operations that touch a submission task list. -/
inductive TaskOp where
  | complete (idx : Nat) (value : Bool)
  | recompute
deriving Repr, DecidableEq

/-- Apply one operation; a rejected update leaves the rows unchanged. -/
def applyTaskOp (ts : List TaskRow) : TaskOp → List TaskRow
  | .complete idx v => (update_task ts idx v).2
  | .recompute => unlock_dependent_tasks ts

/-- Apply a sequence of task operations. -/
def applyTaskOps (ts : List TaskRow) (ops : List TaskOp) : List TaskRow :=
  ops.foldl applyTaskOp ts

/-! ## Follow-up reconciliation (backend/tasks/follow_ups.py and
backend/routers/follow_ups.py) -/

/-- A row of the `follow_ups` table (time measured in hours). -/
structure FollowUp where
  id : String
  status : String
  checks_performed : Nat
  max_checks : Nat
  check_interval_hours : Int
  next_check_at : Int
  auto_check : Bool
  portal_status : Option String
deriving Repr, DecidableEq

/-- The outcome of `_check_opportunity_status` for one opportunity. -/
structure CheckResult where
  status : Option String
  changed : Bool
  analysis : Option String
deriving Repr, DecidableEq

/-- The selection filter of `_run_follow_up_checks`. -/
def is_due (now : Int) (fu : FollowUp) : Bool :=
  (fu.status == "pending" || fu.status == "checked" || fu.status == "updated")
    && decide (fu.next_check_at ≤ now) && fu.auto_check

/-- The body of the batch loop for one due follow-up: at the check cap,
transition to terminal no_change without checking; otherwise record the
check, advance the counter and schedule, and detect awards. -/
def process_due_follow_up (now : Int) (fu : FollowUp) (result : CheckResult) : FollowUp :=
  if fu.max_checks ≤ fu.checks_performed then { fu with status := "no_change" }
  else
    let fu' : FollowUp :=
      { fu with
        status := if result.changed then "updated" else "checked"
        checks_performed := fu.checks_performed + 1
        next_check_at := now + fu.check_interval_hours
        portal_status := result.status }
    if result.changed
        && (strIn "award" (pyLower (result.status.getD ""))
            || strIn "won" (pyLower (result.status.getD ""))) then
      { fu' with status := "awarded" }
    else fu'

/-- `_run_follow_up_checks` over the whole table: due rows are processed with
the status fetched from the source (keyed by follow-up id); others are
untouched. -/
def run_due_checks (now : Int) (results : String → CheckResult)
    (fus : List FollowUp) : List FollowUp :=
  fus.map fun fu => if is_due now fu then process_due_follow_up now fu (results fu.id) else fu

/-- The manual check-now endpoint: records the check and increments
`checks_performed` with no cap guard and no status transition. -/
def trigger_manual_check (fu : FollowUp) (result : CheckResult) : FollowUp :=
  { fu with
    checks_performed := fu.checks_performed + 1
    portal_status := result.status }

/-! ## Helper lemmas for task unlocking -/

/-- Recomputing unlocks never re-locks: a task whose `locked` is false keeps
`locked = false` through `unlock_dependent_tasks`. -/
theorem unlock_preserves_unlocked (ts : List TaskRow) (i : Nat)
    (h : (ts[i]?).map TaskRow.locked = some false) :
    ((unlock_dependent_tasks ts)[i]?).map TaskRow.locked = some false := by
  match ts with
  | [] => simpa [unlock_dependent_tasks] using h
  | [t0] => simpa [unlock_dependent_tasks] using h
  | [t0, t1] => simpa [unlock_dependent_tasks] using h
  | [t0, t1, t2] => simpa [unlock_dependent_tasks] using h
  | [t0, t1, t2, t3] => simpa [unlock_dependent_tasks] using h
  | t0 :: t1 :: t2 :: t3 :: t4 :: rest =>
    match i with
    | 0 => simpa [unlock_dependent_tasks] using h
    | 1 => simpa [unlock_dependent_tasks] using h
    | 2 =>
      simp only [List.getElem?_cons_succ, List.getElem?_cons_zero, Option.map_some'] at h
      have h2 : t2.locked = false := by simpa using h
      simp [unlock_dependent_tasks, h2]
    | 3 =>
      simp only [List.getElem?_cons_succ, List.getElem?_cons_zero, Option.map_some'] at h
      have h3 : t3.locked = false := by simpa using h
      simp [unlock_dependent_tasks, h3]
    | 4 =>
      simp only [List.getElem?_cons_succ, List.getElem?_cons_zero, Option.map_some'] at h
      have h4 : t4.locked = false := by simpa using h
      simp [unlock_dependent_tasks, h4]
    | n + 5 =>
      simpa [unlock_dependent_tasks] using h

/-- Writing the completed flag does not change any `locked` flag. -/
theorem set_preserves_unlocked (ts : List TaskRow) (idx : Nat) (v : Bool) (t : TaskRow)
    (ht : ts[idx]? = some t) (i : Nat)
    (h : (ts[i]?).map TaskRow.locked = some false) :
    ((ts.set idx { t with completed := v })[i]?).map TaskRow.locked = some false := by
  by_cases hij : idx = i
  · subst hij
    have hlen : idx < ts.length := by
      by_contra hc
      simp [List.getElem?_eq_none (Nat.le_of_not_lt hc)] at ht
    rw [List.getElem?_set_self hlen]
    rw [ht] at h
    simpa using h
  · rw [List.getElem?_set_ne hij]
    exact h

/-- One task operation (a completion attempt or an unlock recomputation)
never re-locks an unlocked task. -/
theorem applyTaskOp_preserves_unlocked (ts : List TaskRow) (op : TaskOp) (i : Nat)
    (h : (ts[i]?).map TaskRow.locked = some false) :
    ((applyTaskOp ts op)[i]?).map TaskRow.locked = some false := by
  match op with
  | .recompute => exact unlock_preserves_unlocked ts i h
  | .complete idx v =>
    simp only [applyTaskOp, update_task]
    match hidx : ts[idx]? with
    | none => exact h
    | some t =>
      by_cases hl : t.locked
      · simp [hl, h]
      · have hfl : t.locked = false := by simpa using hl
        simp only [hfl, Bool.false_eq_true, if_false]
        have hset := set_preserves_unlocked ts idx v t hidx i h
        rw [hfl] at hset
        exact unlock_preserves_unlocked _ i hset

/-- Any sequence of task operations never re-locks an unlocked task. -/
theorem applyTaskOps_preserves_unlocked (ops : List TaskOp) (ts : List TaskRow) (i : Nat)
    (h : (ts[i]?).map TaskRow.locked = some false) :
    ((applyTaskOps ts ops)[i]?).map TaskRow.locked = some false := by
  induction ops generalizing ts with
  | nil => exact h
  | cons op ops ih => exact ih _ (applyTaskOp_preserves_unlocked ts op i h)

/-- Recomputing unlocks twice equals recomputing once. -/
theorem unlock_idem (ts : List TaskRow) :
    unlock_dependent_tasks (unlock_dependent_tasks ts) = unlock_dependent_tasks ts := by
  match ts with
  | [] => rfl
  | [t0] => rfl
  | [t0, t1] => rfl
  | [t0, t1, t2] => rfl
  | [t0, t1, t2, t3] => rfl
  | t0 :: t1 :: t2 :: t3 :: t4 :: rest =>
    cases h0 : t0.completed <;> cases h1 : t1.completed <;>
      cases h2c : t2.completed <;> cases h3c : t3.completed <;>
      cases h2 : t2.locked <;> cases h3 : t3.locked <;> cases h4 : t4.locked <;>
      simp [unlock_dependent_tasks, h0, h1, h2c, h3c, h2, h3, h4]

/-- C4: task unlocking is monotonic and idempotent — once a task's `locked`
field is false, no sequence of task-completion or unlock-recomputation
operations sets it back to true, and re-running the unlock computation on an
already-unlocked state is a no-op. -/
theorem task_unlock_monotonic_idempotent :
    (∀ (ts : List TaskRow) (ops : List TaskOp) (i : Nat),
        (ts[i]?).map TaskRow.locked = some false →
        ((applyTaskOps ts ops)[i]?).map TaskRow.locked = some false) ∧
    (∀ ts : List TaskRow,
        unlock_dependent_tasks (unlock_dependent_tasks ts) = unlock_dependent_tasks ts) :=
  ⟨fun ts ops i h => applyTaskOps_preserves_unlocked ops ts i h, unlock_idem⟩

/-- Witness for C4: on the freshly seeded task list, task 1 starts unlocked
and stays unlocked through a concrete operation sequence. -/
theorem task_unlock_monotonic_idempotent_witness :
    ((applyTaskOps (pipeline_default_tasks "s1")
        [TaskOp.complete 0 true, TaskOp.complete 1 true, TaskOp.recompute,
         TaskOp.complete 2 true, TaskOp.complete 1 false])[1]?).map TaskRow.locked
      = some false :=
  task_unlock_monotonic_idempotent.1 (pipeline_default_tasks "s1")
    [TaskOp.complete 0 true, TaskOp.complete 1 true, TaskOp.recompute,
     TaskOp.complete 2 true, TaskOp.complete 1 false] 1 (by decide)

/-! ## C3: sequential approval rejection is atomic -/

/-- C3: approving a step while an earlier step (smaller `step_order`) is still
pending yields the sequential-order-violation rejection, and the approval
steps and the derived `approval_status` are left exactly as they were. -/
theorem approve_out_of_order_rejected (sub : SubmissionApproval) (step user_id : String)
    (note : Option String) (now : Nat) (target prior : ApprovalStep)
    (htarget : (sortedSteps sub.steps).find? (fun w => w.step_name == step) = some target)
    (hnot : target.status ≠ "approved")
    (hmem : prior ∈ sub.steps)
    (horder : prior.step_order < target.step_order)
    (hpending : prior.status = "pending") :
    ∃ p, approve_submission sub step user_id note now
      = (.sequentialOrderViolation step p, sub) := by
  have hne : (sortedSteps sub.steps).isEmpty = false := by
    cases hws : sortedSteps sub.steps with
    | nil => rw [hws] at htarget; simp at htarget
    | cons a l => simp
  have hsome : ((sortedSteps sub.steps).find?
      (fun w => decide (w.step_order < target.step_order) && w.status != "approved")).isSome := by
    rw [List.find?_isSome]
    refine ⟨prior, ((List.perm_insertionSort _ _).mem_iff).mpr hmem, ?_⟩
    simp [horder, hpending]
  obtain ⟨pr, hpr⟩ := Option.isSome_iff_exists.mp hsome
  refine ⟨pr.step_name, ?_⟩
  have hbeq : (target.status == "approved") = false := beq_eq_false_iff_ne.mpr hnot
  simp only [approve_submission, hne, Bool.false_eq_true, if_false, htarget, hbeq, hpr]

/-- The legal step, order 1, still pending. -/
def c3legal : ApprovalStep :=
  { step_name := "legal", step_order := 1, status := "pending",
    approver_id := none, approved_at := none, step_notes := none }

/-- The finance step, order 2, still pending. -/
def c3finance : ApprovalStep :=
  { step_name := "finance", step_order := 2, status := "pending",
    approver_id := none, approved_at := none, step_notes := none }

/-- Witness for C3: approving finance before legal on the standard 2-step
workflow is rejected and changes nothing. -/
theorem approve_out_of_order_rejected_witness :
    ∃ p, approve_submission ⟨[c3legal, c3finance], "pending"⟩ "finance" "officer-1" none 0
      = (.sequentialOrderViolation "finance" p, ⟨[c3legal, c3finance], "pending"⟩) :=
  approve_out_of_order_rejected ⟨[c3legal, c3finance], "pending"⟩ "finance" "officer-1"
    none 0 c3finance c3legal (by decide) (by decide) (by decide) (by decide) (by decide)

/-! ## C2, C10, C6: pipeline auto-creation -/

/-- C2: `_auto_create_submission` is idempotent — when an owner resolves and
the opportunity has at most one existing submission row, calling it twice
returns the same submission id both times and leaves exactly one submission
row for that opportunity; an existing row is returned, never duplicated. -/
theorem auto_create_submission_idempotent (db : PipelineDB) (opp : OppRecord)
    (uid : Option String) (howner : strTruthy uid = true)
    (hcount : countSubs db opp.id ≤ 1) :
    (auto_create_submission ((auto_create_submission db opp uid).2) opp uid).1
        = (auto_create_submission db opp uid).1 ∧
    (auto_create_submission db opp uid).1.isSome = true ∧
    countSubs (auto_create_submission ((auto_create_submission db opp uid).2) opp uid).2
        opp.id = 1 := by
  cases hfilter : db.submissions.filter (fun s => s.opportunity_id == opp.id) with
  | cons e rest =>
    have hrest : rest = [] := by
      have := hcount
      rw [countSubs, hfilter] at this
      simpa using this
    subst hrest
    simp [auto_create_submission, hfilter, countSubs]
  | nil =>
    simp [auto_create_submission, hfilter, howner, countSubs, List.filter_append]

/-- A fresh database with one admin profile and no submissions. -/
def c2db : PipelineDB :=
  { submissions := [], submission_tasks := [], approval_workflows := [],
    profiles := ["admin-1"], next_id := 0 }

/-- A concrete qualified opportunity for the idempotence witness. -/
def c2opp : OppRecord :=
  { id := "opp-1", title := "Radar Maintenance", source := some "sam", fit_score := some 85 }

/-- Witness for C2: on an empty database, both calls return the id of the
one submission that exists afterwards. -/
theorem auto_create_submission_idempotent_witness :
    (auto_create_submission ((auto_create_submission c2db c2opp (some "u1")).2)
        c2opp (some "u1")).1 = (auto_create_submission c2db c2opp (some "u1")).1 ∧
    (auto_create_submission c2db c2opp (some "u1")).1.isSome = true ∧
    countSubs (auto_create_submission ((auto_create_submission c2db c2opp (some "u1")).2)
        c2opp (some "u1")).2 "opp-1" = 1 :=
  auto_create_submission_idempotent c2db c2opp (some "u1") (by decide) (by decide)

/-- C10: when any submission row exists for the opportunity — whatever its
status, terminal ones included — `_auto_create_submission` returns that
row's id and the database is completely unchanged. -/
theorem auto_create_returns_existing_any_status (db : PipelineDB) (opp : OppRecord)
    (uid : Option String) (e : SubmissionRow) (rest : List SubmissionRow)
    (hfilter : db.submissions.filter (fun s => s.opportunity_id == opp.id) = e :: rest) :
    auto_create_submission db opp uid = (some e.id, db) := by
  simp [auto_create_submission, hfilter]

/-- A submission row already in the terminal status rejected. -/
def c10row : SubmissionRow :=
  { id := "sub-7", opportunity_id := "opp-1", owner_id := "u1", title := "T",
    portal := "SAM.gov", status := "rejected", notes := "" }

/-- A database whose only submission for opp-1 is the rejected one. -/
def c10db : PipelineDB :=
  { submissions := [c10row], submission_tasks := [], approval_workflows := [],
    profiles := ["admin-1"], next_id := 8 }

/-- The opportunity whose submission was rejected. -/
def c10opp : OppRecord :=
  { id := "opp-1", title := "T", source := some "sam", fit_score := some 90 }

/-- Witness for C10: with a rejected submission on file, auto-create returns
its id and inserts nothing. -/
theorem auto_create_returns_existing_any_status_witness :
    auto_create_submission c10db c10opp (some "u2") = (some "sub-7", c10db) :=
  auto_create_returns_existing_any_status c10db c10opp (some "u2") c10row [] (by decide)

/-- An empty database for exercising the auto-create seeding. -/
def c6db : PipelineDB :=
  { submissions := [], submission_tasks := [], approval_workflows := [],
    profiles := ["admin-1"], next_id := 0 }

/-- The opportunity auto-created on the empty database. -/
def c6opp : OppRecord :=
  { id := "opp-1", title := "Radar Maintenance", source := some "sam", fit_score := some 85 }

/-- C6: an auto-created submission gets exactly the five default tasks the
manual endpoint seeds (tasks 2-4 locked) — but no approval-workflow rows at
all, while the manual endpoint seeds two sequential steps. The claimed
2-step parity fails on the code. -/
theorem auto_create_seeds_no_approval_steps :
    (auto_create_submission c6db c6opp none).1 = some "sub-0" ∧
    tasksFor (auto_create_submission c6db c6opp none).2 "sub-0"
      = manual_default_tasks "sub-0" ∧
    stepsFor (auto_create_submission c6db c6opp none).2 "sub-0" = [] ∧
    manual_approval_steps "sub-0" ≠ [] := by decide

/-! ## C5: the check cap -/

/-- The batch loop body preserves `checks_performed ≤ max_checks`. -/
theorem process_preserves_max (now : Int) (fu : FollowUp) (r : CheckResult)
    (h : fu.checks_performed ≤ fu.max_checks) :
    (process_due_follow_up now fu r).checks_performed
      ≤ (process_due_follow_up now fu r).max_checks := by
  unfold process_due_follow_up
  by_cases hge : fu.max_checks ≤ fu.checks_performed
  · simp only [hge, if_true]
    exact h
  · have hlt : fu.checks_performed < fu.max_checks := Nat.lt_of_not_le hge
    simp only [hge, if_false]
    split <;> simpa using hlt

/-- At the cap the batch loop only writes the terminal no_change status. -/
theorem process_at_max_terminal (now : Int) (fu : FollowUp) (r : CheckResult)
    (h : fu.max_checks ≤ fu.checks_performed) :
    process_due_follow_up now fu r = { fu with status := "no_change" } := by
  simp [process_due_follow_up, h]

/-- C5 (amended): the batch `run_due_checks` loop preserves
`checks_performed ≤ max_checks` for every follow-up and turns a due
follow-up that is already at the cap into terminal no_change without
performing a check; the manual check-now trigger, by contrast, increments
`checks_performed` unconditionally. -/
theorem run_due_checks_respects_max (now : Int) (results : String → CheckResult)
    (fus : List FollowUp)
    (hinv : ∀ fu ∈ fus, fu.checks_performed ≤ fu.max_checks) :
    (∀ fu' ∈ run_due_checks now results fus,
        fu'.checks_performed ≤ fu'.max_checks) ∧
    (∀ fu ∈ fus, fu.max_checks ≤ fu.checks_performed →
        process_due_follow_up now fu (results fu.id) = { fu with status := "no_change" }) ∧
    (∀ (fu : FollowUp) (r : CheckResult),
        (trigger_manual_check fu r).checks_performed = fu.checks_performed + 1) := by
  refine ⟨?_, ?_, ?_⟩
  · intro fu' hmem
    rw [run_due_checks] at hmem
    obtain ⟨fu, hfu, rfl⟩ := List.mem_map.mp hmem
    by_cases hdue : is_due now fu
    · simp only [hdue, if_true]
      exact process_preserves_max now fu (results fu.id) (hinv fu hfu)
    · simp only [hdue, if_false]
      exact hinv fu hfu
  · intro fu _ h
    exact process_at_max_terminal now fu (results fu.id) h
  · intro fu r
    rfl

/-- A follow-up sitting exactly at its check cap. -/
def c5fu : FollowUp :=
  { id := "fu-1", status := "checked", checks_performed := 5, max_checks := 5,
    check_interval_hours := 24, next_check_at := 0, auto_check := true,
    portal_status := some "active" }

/-- A source check that found no change. -/
def c5res : CheckResult := { status := some "active", changed := false, analysis := none }

/-- C5 counterexample: the manual check-now trigger pushes
`checks_performed` past `max_checks`, breaking the invariant the claim
asserts for that operation. -/
theorem manual_check_exceeds_max_checks :
    c5fu.checks_performed ≤ c5fu.max_checks ∧
    (trigger_manual_check c5fu c5res).checks_performed = 6 ∧
    ¬((trigger_manual_check c5fu c5res).checks_performed
        ≤ (trigger_manual_check c5fu c5res).max_checks) := by decide

/-- Witness for C5 (amended): the at-cap follow-up is sent to terminal
no_change without a check by the batch loop, while the manual trigger
increments its counter. -/
theorem run_due_checks_respects_max_witness :
    process_due_follow_up 0 c5fu c5res = { c5fu with status := "no_change" } ∧
    (trigger_manual_check c5fu c5res).checks_performed = c5fu.checks_performed + 1 :=
  ⟨(run_due_checks_respects_max 0 (fun _ => c5res) [c5fu] (by decide)).2.1 c5fu
      (by decide) (by decide),
   (run_due_checks_respects_max 0 (fun _ => c5res) [c5fu] (by decide)).2.2 c5fu c5res⟩

/-! ## C1: fallback on scorer failure -/

/-- C1: whenever the scorer fails (and no cached result short-circuits the
call), `qualify_opportunity` returns a value rather than raising: the
deterministic fallback with fit 50, effort 50,
urgency `clamp(100 - 3*days_until_due, 0, 100)`, the estimate-flagged
summary, and the error in the reasoning; the cache is untouched. -/
theorem qualify_scorer_failure_fallback (cache : LlmCache) (opportunity : Opportunity)
    (profile : Option CompanyProfile) (force_refresh : Bool) (e : String)
    (hmiss : force_refresh = true ∨ strTruthy opportunity.id = false ∨
        cacheLookup cache (opportunity.id.getD "") = none) :
    qualify_opportunity cache opportunity profile force_refresh (.error e)
      = ({ fit_score := 50, effort_score := 50,
           urgency_score := max 0 (min 100 (100 - (opportunity.dueDays.getD 30) * 3)),
           summary := "AI qualification unavailable — scores are estimates.",
           reasoning := .failure e, personalized := none }, cache) := by
  rcases hmiss with h | h | h
  · simp [qualify_opportunity, h, scoreWithFallback]
  · simp [qualify_opportunity, h, scoreWithFallback]
  · by_cases hb : (!force_refresh && strTruthy opportunity.id) = true
    · simp [qualify_opportunity, hb, h, scoreWithFallback]
    · simp [qualify_opportunity, hb, scoreWithFallback]

/-- An opportunity due three days from today. -/
def c1opp : Opportunity :=
  { id := some "opp-9", naics_code := none, estimated_value := none,
    set_aside := none, dueDays := some 3 }

/-- Witness for C1: due date today+3 and a throwing scorer produce
urgency 91, fit 50, effort 50. -/
theorem qualify_scorer_failure_fallback_witness :
    qualify_opportunity [] c1opp none false (.error "LLM unavailable")
      = ({ fit_score := 50, effort_score := 50, urgency_score := 91,
           summary := "AI qualification unavailable — scores are estimates.",
           reasoning := .failure "LLM unavailable", personalized := none }, []) := by
  rw [qualify_scorer_failure_fallback [] c1opp none false "LLM unavailable"
    (Or.inr (Or.inr rfl))]
  decide

/-! ## C7: pre-filter characterization -/

/-- An opportunity whose NAICS matches the profile but whose value exceeds
the profile's maximum. -/
def c7opp : Opportunity :=
  { id := some "o1", naics_code := some "541511", estimated_value := some 1000000,
    set_aside := none, dueDays := some 10 }

/-- A profile registering the 5415 NAICS prefix and a 500k value cap. -/
def c7profile : CompanyProfile :=
  { company_name := some "Acme", naics_codes := ["5415"],
    min_contract_value := none, max_contract_value := some 500000,
    set_aside_types := [], certifications := [] }

/-- C7 counterexample: the pre-filter returns false although the available
NAICS signal agrees (and set-aside does not object) — only the value check
fails, refuting that false requires all available signals to disagree. -/
theorem prefilter_false_despite_agreeing_signal :
    is_prefilter_pass c7opp (some c7profile) = false ∧
    naics_matches c7opp.naics_code c7profile.naics_codes = true ∧
    set_aside_eligible c7opp.set_aside
      (c7profile.set_aside_types ++ c7profile.certifications) = true ∧
    value_in_range c7opp.estimated_value c7profile.min_contract_value
      c7profile.max_contract_value = false := by decide

/-- C7 (amended): the pre-filter passes any opportunity when the profile is
empty or absent; for a non-empty profile it is the conjunction of the three
checks, returning false exactly when at least one available signal
disagrees; and each check passes when its own data is missing. -/
theorem prefilter_characterization :
    (∀ opportunity, is_prefilter_pass opportunity none = true) ∧
    (∀ opportunity p, is_prefilter_pass opportunity (some p) = false ↔
        (naics_matches opportunity.naics_code p.naics_codes = false ∨
         value_in_range opportunity.estimated_value p.min_contract_value
           p.max_contract_value = false ∨
         set_aside_eligible opportunity.set_aside
           (p.set_aside_types ++ p.certifications) = false)) ∧
    (∀ (mn mx : Option ℚ) (codes elig : List String),
        naics_matches none codes = true ∧ value_in_range none mn mx = true ∧
        set_aside_eligible none elig = true) := by
  refine ⟨fun _ => rfl, ?_, fun mn mx codes elig => ⟨rfl, rfl, rfl⟩⟩
  intro opportunity p
  simp only [is_prefilter_pass, Bool.and_eq_false_iff]
  tauto

/-! ## C8: cache idempotence -/

/-- A cache write is found by the next lookup when the id was not cached. -/
theorem cacheLookup_append_self (cache : LlmCache) (oppId : String)
    (r : QualificationResult) (h : cacheLookup cache oppId = none) :
    cacheLookup (cache ++ [(oppId, r)]) oppId = some r := by
  have hfind : List.find? (fun e => e.1 == oppId) cache = none := by
    rw [cacheLookup] at h
    exact Option.map_eq_none'.mp h
  rw [cacheLookup, List.find?_append, hfind]
  simp [List.find?]

/-- C8 (amended): for an opportunity with a truthy id whose first
qualification succeeds in scoring, a second call without force-refresh
returns exactly the first call's result and cache state — the cache hit
short-circuits scoring, whatever the second scorer outcome would be. -/
theorem qualify_cache_idempotent (cache : LlmCache) (opportunity : Opportunity)
    (profile : Option CompanyProfile) (out : ScorerOutput)
    (sc2 : Except String ScorerOutput)
    (hid : strTruthy opportunity.id = true) :
    qualify_opportunity ((qualify_opportunity cache opportunity profile false (.ok out)).2)
        opportunity profile false sc2
      = qualify_opportunity cache opportunity profile false (.ok out) := by
  cases hcl : cacheLookup cache (opportunity.id.getD "") with
  | some r =>
    simp [qualify_opportunity, hid, hcl]
  | none =>
    have h1 : qualify_opportunity cache opportunity profile false (.ok out)
        = scoreWithFallback cache opportunity profile (.ok out) := by
      simp [qualify_opportunity, hid, hcl]
    rw [h1]
    have h2 : (scoreWithFallback cache opportunity profile (.ok out)).2
        = cache ++ [(opportunity.id.getD "",
            (scoreWithFallback cache opportunity profile (.ok out)).1)] := by
      simp [scoreWithFallback, hid]
    rw [h2]
    have h3 := cacheLookup_append_self cache (opportunity.id.getD "")
      (scoreWithFallback cache opportunity profile (.ok out)).1 hcl
    simp [qualify_opportunity, hid, h3]
    rw [← h2]

/-- An opportunity (with id) due three days out, for the cache scenarios. -/
def c8opp : Opportunity :=
  { id := some "opp-3", naics_code := none, estimated_value := none,
    set_aside := none, dueDays := some 3 }

/-- A successful scorer response. -/
def c8out : ScorerOutput :=
  { fit_score := 80, effort_score := 40, urgency_score := 70, summary := "Good fit.",
    fit_reason := "f", effort_reason := "e", urgency_reason := "u" }

/-- C8 counterexample: when the first call falls back (scorer failure, so
nothing is cached) and the second call's scorer succeeds, the two calls —
both without force-refresh — return different results. -/
theorem qualify_twice_differs_after_fallback :
    (qualify_opportunity ((qualify_opportunity [] c8opp none false (.error "timeout")).2)
        c8opp none false (.ok c8out)).1
      ≠ (qualify_opportunity [] c8opp none false (.error "timeout")).1 := by decide

/-- Witness for C8 (amended): after a successful first call the second call
returns the identical result even though its scorer would fail. -/
theorem qualify_cache_idempotent_witness :
    qualify_opportunity ((qualify_opportunity [] c8opp none false (.ok c8out)).2)
        c8opp none false (.error "timeout")
      = qualify_opportunity [] c8opp none false (.ok c8out) :=
  qualify_cache_idempotent [] c8opp none c8out (.error "timeout") (by decide)

/-! ## C9: clamping truncates rather than rounds -/

/-- An opportunity with id for the clamping scenarios. -/
def c9opp : Opportunity :=
  { id := some "o9", naics_code := none, estimated_value := none,
    set_aside := none, dueDays := some 10 }

/-- A scorer response whose raw scores are all 85.7. -/
def c9out : ScorerOutput :=
  { fit_score := mkRat 857 10, effort_score := mkRat 857 10,
    urgency_score := mkRat 857 10,
    summary := "s", fit_reason := "f", effort_reason := "e", urgency_reason := "u" }

/-- C9 counterexample: on raw score 85.7 the code produces 85 (Python `int`
truncation) while the claimed `max(0, min(100, round(score)))` gives 86. -/
theorem clamp_truncates_not_rounds :
    (qualify_opportunity [] c9opp none false (.ok c9out)).1.fit_score = 85 ∧
    spec_round_clamp (mkRat 857 10) = 86 ∧ (85 : Int) ≠ 86 := by decide

/-- C9 (amended): on scorer success each returned score is
`max(0, min(100, int(score)))` — truncation toward zero, then clamping —
and in particular every returned score lies in [0, 100]. -/
theorem qualify_success_clamped (cache : LlmCache) (opportunity : Opportunity)
    (profile : Option CompanyProfile) (out : ScorerOutput)
    (hmiss : cacheLookup cache (opportunity.id.getD "") = none) :
    (qualify_opportunity cache opportunity profile false (.ok out)).1.fit_score
        = max 0 (min 100 (pyInt out.fit_score)) ∧
    (qualify_opportunity cache opportunity profile false (.ok out)).1.effort_score
        = max 0 (min 100 (pyInt out.effort_score)) ∧
    (qualify_opportunity cache opportunity profile false (.ok out)).1.urgency_score
        = max 0 (min 100 (pyInt out.urgency_score)) ∧
    0 ≤ (qualify_opportunity cache opportunity profile false (.ok out)).1.fit_score ∧
    (qualify_opportunity cache opportunity profile false (.ok out)).1.fit_score ≤ 100 ∧
    0 ≤ (qualify_opportunity cache opportunity profile false (.ok out)).1.effort_score ∧
    (qualify_opportunity cache opportunity profile false (.ok out)).1.effort_score ≤ 100 ∧
    0 ≤ (qualify_opportunity cache opportunity profile false (.ok out)).1.urgency_score ∧
    (qualify_opportunity cache opportunity profile false (.ok out)).1.urgency_score ≤ 100 := by
  have hfresh : qualify_opportunity cache opportunity profile false (.ok out)
      = scoreWithFallback cache opportunity profile (.ok out) := by
    cases hc : strTruthy opportunity.id <;> simp [qualify_opportunity, hc, hmiss]
  have hb : ∀ n : Int, 0 ≤ max 0 (min 100 n) ∧ max 0 (min 100 n) ≤ 100 := by
    intro n
    constructor
    · exact le_max_left 0 _
    · exact max_le (by norm_num) (min_le_left _ _)
  rw [hfresh]
  refine ⟨rfl, rfl, rfl, ?_, ?_, ?_, ?_, ?_, ?_⟩ <;>
    first
      | exact (hb _).1
      | exact (hb _).2

/-- Witness for C9 (amended): the concrete 85.7 scores are clamped to the
truncated value and lie within bounds. -/
theorem qualify_success_clamped_witness :
    (qualify_opportunity [] c9opp none false (.ok c9out)).1.fit_score
        = max 0 (min 100 (pyInt (mkRat 857 10))) ∧
    (qualify_opportunity [] c9opp none false (.ok c9out)).1.effort_score
        = max 0 (min 100 (pyInt (mkRat 857 10))) ∧
    (qualify_opportunity [] c9opp none false (.ok c9out)).1.urgency_score
        = max 0 (min 100 (pyInt (mkRat 857 10))) ∧
    0 ≤ (qualify_opportunity [] c9opp none false (.ok c9out)).1.fit_score ∧
    (qualify_opportunity [] c9opp none false (.ok c9out)).1.fit_score ≤ 100 ∧
    0 ≤ (qualify_opportunity [] c9opp none false (.ok c9out)).1.effort_score ∧
    (qualify_opportunity [] c9opp none false (.ok c9out)).1.effort_score ≤ 100 ∧
    0 ≤ (qualify_opportunity [] c9opp none false (.ok c9out)).1.urgency_score ∧
    (qualify_opportunity [] c9opp none false (.ok c9out)).1.urgency_score ≤ 100 :=
  qualify_success_clamped [] c9opp none c9out (by decide)

end Procura
